import Mathlib

/-!
Verification development for the accelerator notebooks
(`04-Complex-Docs.ipynb`, `06-TabularDataQA.ipynb`, `09-API-Search.ipynb`).

The original logic of the notebooks is shallowly embedded below: pure Python
expressions become Lean functions, side-effecting collaborators (the LLM,
the HTTP transport, the embedding model, the tokenizer) become explicit
function parameters, and Python exceptions become `Except` values.
-/

namespace Spec2Proof

/-! ## 04-Complex-Docs: token budgeting and chain-type selection

Embeds the cell
  `chain_type = "map_reduce" if requested_tokens > 0.9 * tokens_limit else "stuff"`
and its surrounding `if(len(top_docs)>0): ... else: print("NO RESULTS FROM AZURE SEARCH")`
guard.  Token counts are natural numbers; the Python float comparison
`requested_tokens > 0.9 * tokens_limit` (ints promoted to float) is embedded
as the exact comparison over `ℚ`.
-/

/-- One langchain `Document` as built in the notebook:
`Document(page_content=value["chunk"], metadata={"source": location+SAS})`. -/
structure Document where
  page_content : String
  source : String
deriving DecidableEq, Repr

/-- The strategy choice line of `04-Complex-Docs.ipynb`:
`"map_reduce" if requested_tokens > 0.9 * tokens_limit else "stuff"`. -/
def chain_type (requested_tokens tokens_limit : ℕ) : String :=
  if (requested_tokens : ℚ) > 0.9 * (tokens_limit : ℚ) then "map_reduce" else "stuff"

/-- Outcome of the token-counting cell: either a selected chain type together
with the token counts computed on the way, or the fixed no-results message. -/
inductive StrategyOutcome where
  | selected (prompt_tokens context_tokens requested_tokens : ℕ) (chainType : String)
  | noResults (msg : String)
deriving DecidableEq, Repr

/-- The whole token-counting cell of `04-Complex-Docs.ipynb`.  The helpers
`model_tokens_limit`, `num_tokens_from_string` and `num_tokens_from_docs`
live in `common/utils.py` (outside the notebook sources) and are therefore
taken as function parameters; the cell only combines their outputs. -/
def strategy_step (model_tokens_limit : String → ℕ)
    (num_tokens_from_string : String → ℕ)
    (num_tokens_from_docs : List Document → ℕ)
    (MODEL COMBINE_PROMPT_TEMPLATE : String) (COMPLETION_TOKENS : ℕ)
    (top_docs : List Document) : StrategyOutcome :=
  if top_docs.length > 0 then
    let tokens_limit := model_tokens_limit MODEL
    let prompt_tokens := num_tokens_from_string COMBINE_PROMPT_TEMPLATE
    let context_tokens := num_tokens_from_docs top_docs
    let requested_tokens := prompt_tokens + context_tokens + COMPLETION_TOKENS
    .selected prompt_tokens context_tokens requested_tokens
      (chain_type requested_tokens tokens_limit)
  else
    .noResults "NO RESULTS FROM AZURE SEARCH"

/-! ## Outer retry loops (06-TabularDataQA and 09-API-Search)

Both notebooks wrap `agent_executor.run` in a `for i in range(n)` loop that
breaks on the first success and otherwise stores an error text.  The loop is
embedded over the list of outcomes the successive run attempts would produce
(`run i` is what the `i`-th call of `agent_executor.run` does): `.ok s` is a
normal return, `.error e` a raised exception whose text is `e`.  The result
pairs the final `response` value with the number of invocations made. -/

/-- Loop body shared by both notebooks: walk the attempt outcomes,
stop at the first success, on failure set `response := onErr e` and continue;
`resp` is the value `response` holds entering the loop (unused when the loop
runs at least once). -/
def forRetry (onErr : String → String) : List (Except String String) → String → String × ℕ
  | [], resp => (resp, 0)
  | r :: rest, _resp =>
    match r with
    | .ok s => (s, 1)
    | .error e =>
      let next := forRetry onErr rest (onErr e)
      (next.1, next.2 + 1)

/-- The retry loop of `06-TabularDataQA.ipynb`:
`for i in range(5): try: ... break; except: response = "Error too many failed retries"`. -/
def tabular_retry (run : ℕ → Except String String) : String × ℕ :=
  forRetry (fun _ => "Error too many failed retries") ((List.range 5).map run) ""

/-- The retry loop of `09-API-Search.ipynb`:
`for i in range(2): try: ... break; except Exception as e: response = str(e)`. -/
def api_retry (run : ℕ → Except String String) : String × ℕ :=
  forRetry (fun e => e) ((List.range 2).map run) ""

/-- The loop never makes more invocations than it has attempt outcomes. -/
theorem forRetry_count_le (onErr : String → String)
    (l : List (Except String String)) (resp : String) :
    (forRetry onErr l resp).2 ≤ l.length := by
  induction l generalizing resp with
  | nil => simp [forRetry]
  | cons r rest ih =>
    cases r with
    | ok s => simp [forRetry]
    | error e =>
      simpa [forRetry, Nat.succ_le_succ_iff] using ih (onErr e)

/-! ## 09-API-Search: the two tool variants

The `_run` of a tool is annotated `-> str` in the source, but its `except` branch
does `response = e`, so the value that actually crosses the tool boundary is
either a plain string or the caught exception object.  `ToolResult`
distinguishes the two.  An exception that escapes `_run` uncaught is the
`.error` of the outer `Except`. -/

/-- What the `_run` of a tool hands back to the agent loop: a plain string, or the
caught exception object itself (`response = e`). -/
inductive ToolResult where
  | text (s : String)
  | errObj (e : String)
deriving DecidableEq, Repr

/-- A JSON value, as produced by `api_result.json()`. -/
inductive Json where
  | null : Json
  | bool : Bool → Json
  | num : Int → Json
  | str : String → Json
  | arr : List Json → Json
  | obj : List (String × Json) → Json

mutual

/-- Serialization `json.dumps` on a parsed value. -/
def Json.dumps : Json → String
  | .null => "null"
  | .bool b => if b then "true" else "false"
  | .num n => toString n
  | .str s => "\"" ++ s ++ "\""
  | .arr xs => "[" ++ Json.dumpsList xs ++ "]"
  | .obj kvs => "\x7b" ++ Json.dumpsObj kvs ++ "\x7d"

def Json.dumpsList : List Json → String
  | [] => ""
  | [x] => Json.dumps x
  | x :: xs => Json.dumps x ++ ", " ++ Json.dumpsList xs

def Json.dumpsObj : List (String × Json) → String
  | [] => ""
  | [(k, v)] => "\"" ++ k ++ "\": " ++ Json.dumps v
  | (k, v) :: kvs => "\"" ++ k ++ "\": " ++ Json.dumps v ++ ", " ++ Json.dumpsObj kvs

end

/-- Prefix test over the underlying character lists: does the request URL
start with the allow-list entry? -/
def strStartsWith (s p : String) : Bool :=
  p.data.isPrefixOf s.data

/-- Modelled from the spec: the `APIChain` built by
`APIChain.from_llm_and_api_docs(llm, api_docs, headers, limit_to_domains)` is
orchestration-library code, not part of this repository, so its `run` is
modelled from the contract the spec gives for the spec-guided variant: synthesize one
concrete request from the reduced description and the query (`synthesize`,
which may fail — ModelFailure), reject it with DomainNotAllowed before
execution when an allow-list is configured and the target of the request matches
no allowed domain, otherwise execute it (`execute`, which may fail —
UpstreamFailure) and summarize the raw response against the query
(`summarize`).  The second component lists the URLs for which a network call
was made. -/
def APIChain_run (limit_to_domains : List String)
    (synthesize : String → Except String String)
    (execute : String → Except String String)
    (summarize : String → String → Except String String)
    (query : String) : Except String String × List String :=
  match synthesize query with
  | .error e => (.error e, [])
  | .ok url =>
    if limit_to_domains ≠ [] ∧ ¬ limit_to_domains.any (fun d => strStartsWith url d) then
      (.error ("DomainNotAllowed: " ++ url), [])
    else
      match execute url with
      | .error e => (.error e, [url])
      | .ok body =>
        match summarize query body with
        | .error e => (.error e, [url])
        | .ok summary => (.ok summary, [url])

/-- Method `MyAPISearch._run` from `09-API-Search.ipynb`: build the `APIChain` from
the configuration of the tool, `try: response = chain.run(query)` and
`except Exception as e: response = e`, then `return response`.  Every
exception raised by `chain.run` is caught, and the caught object itself is
returned (`.errObj`); the outer `Except` never holds `.error` here. -/
def MyAPISearch_run (limit_to_domains : List String)
    (synthesize : String → Except String String)
    (execute : String → Except String String)
    (summarize : String → String → Except String String)
    (query : String) : Except String ToolResult × List String :=
  let rc := APIChain_run limit_to_domains synthesize execute summarize query
  (match rc.1 with
   | .ok s => .ok (.text s)
   | .error e => .ok (.errObj e),
   rc.2)

/-- Method `MySimpleAPISearch._run` from `09-API-Search.ipynb`.  The parameter map is
rebuilt on every call with `search_term` set to the query;
`requests.get` on the fixed Countdown API endpoint stands outside
the `try`, so a transport failure (outer `.error` of `get`) escapes `_run`
uncaught; inside the `try`, `json.dumps(api_result.json())` either succeeds
or the caught exception object is returned.  `get url params` returns
`.error e` when `requests.get` raises, `.ok (.error e)` when the parse step
``.json()` of the response raises, and `.ok (.ok j)` for a parsed body `j`.  The second
component records the HTTP GET requests issued (URL and parameter map). -/
def MySimpleAPISearch_run
    (get : String → List (String × String) → Except String (Except String Json))
    (api_key query : String) :
    Except String ToolResult × List (String × List (String × String)) :=
  let params := [("api_key", api_key), ("type", "search"),
                 ("ebay_domain", "ebay.com"), ("search_term", query)]
  let url := "https://api.countdownapi.com/request"
  match get url params with
  | .error e => (.error e, [(url, params)])
  | .ok (.error e) => (.ok (.errObj e), [(url, params)])
  | .ok (.ok j) => (.ok (.text (Json.dumps j)), [(url, params)])

/-! ## Spec Reducer (`reduce_openapi_spec`)

The notebooks import `reduce_openapi_spec` and `num_tokens_from_string` from
`common/utils.py`, a repository file that is not among the given sources, so
the reducer is modelled from the spec (sections 3 and 4.1). -/

/-- Modelled from the spec: one parameter of an operation in an API
Description — name, location (path/query/header/body), required flag and
primitive type, plus the verbose detail (nested object schema, examples)
that reduction strips. -/
structure Param where
  name : String
  location : String
  required : Bool
  primType : String
  schema : Option String
  examples : Option String
deriving DecidableEq, Repr

/-- Modelled from the spec: one operation of an API Description — HTTP
method, path template, free-text summary and description, parameters, and a
response shape that the reduced form omits. -/
structure Operation where
  method : String
  path : String
  summary : Option String
  description : Option String
  parameters : List Param
  responses : Option String
deriving DecidableEq, Repr

/-- Modelled from the spec: an API Description is a nested mapping whose
top-level operation collection may be missing entirely (`none`). -/
structure ApiDescription where
  operations : Option (List Operation)
deriving DecidableEq, Repr

/-- Modelled from the spec: reduction keeps parameter metadata only,
stripping nested object schemas and examples. -/
def reduceParam (p : Param) : Param :=
  { p with schema := none, examples := none }

/-- Modelled from the spec: per operation the reduced form keeps method,
path and a one-line summary (falling back to the description text when the
summary is absent, and to an empty default when both are absent), keeps
reduced parameters, and drops response bodies. -/
def reduceOperation (op : Operation) : Operation :=
  { method := op.method
    path := op.path
    summary := some (op.summary.getD (op.description.getD ""))
    description := none
    parameters := op.parameters.map reduceParam
    responses := none }

/-- Modelled from the spec: `reduce_openapi_spec` (defined in
`common/utils.py`, absent from the given sources) turns a full API
Description into a Reduced Description, and fails with a MalformedSpec
textual explanation when the input does not describe at least one operation
(e.g. the top-level key for operations is missing entirely).  It is a total
function: every input yields either a reduced description or the error
text, never a crash. -/
def reduce_openapi_spec (D : ApiDescription) : Except String ApiDescription :=
  match D.operations with
  | none => .error "MalformedSpec: the document has no operation collection"
  | some [] => .error "MalformedSpec: the document describes no operation"
  | some ops => .ok ⟨some (ops.map reduceOperation)⟩

/-- Serialized size of an optional text field: the length of its content,
zero when absent. -/
def optSize (o : Option String) : ℕ :=
  (o.getD "").length

/-- Serialized size of a parameter: total length of its serialized fields
(the required flag serializes to one character). -/
def paramSize (p : Param) : ℕ :=
  p.name.length + p.location.length + 1 + p.primType.length +
    optSize p.schema + optSize p.examples

/-- Serialized size of an operation. -/
def opSize (op : Operation) : ℕ :=
  op.method.length + op.path.length + optSize op.summary +
    optSize op.description + (op.parameters.map paramSize).sum +
    optSize op.responses

/-- Serialized size of an API Description: total size of its operations. -/
def serialized_size (D : ApiDescription) : ℕ :=
  ((D.operations.getD []).map opSize).sum

/-! ## 04-Complex-Docs: index upload payload -/

/-- One document of the `upload_payload` posted to the search index; the
embedding vector type is abstract (`E`). -/
structure IndexDoc (E : Type) where
  id : String
  title : String
  chunk : String
  chunkVector : E
  name : String
  location : String
  page_num : ℕ

/-- The document built in the upload loop of `04-Complex-Docs.ipynb` for one
parsed page (a `parse_pdf` triple; the loop reads `page[0]` and `page[2]`):
`page_num = page[0] + 1`, `content = page[2]`, and the payload fields
including `"chunkVector": embedder.embed_query(content if content!="" else "-------")`.
`embed_query` and `text_to_base64` (from `common/utils.py`) are parameters. -/
def upload_payload_doc {E : Type} (embed_query : String → E)
    (text_to_base64 : String → String) (BASE_CONTAINER_URL bookname : String)
    (page : ℕ × String × String) : IndexDoc E :=
  let page_num := page.1 + 1
  let content := page.2.2
  let book_url := BASE_CONTAINER_URL ++ bookname
  { id := text_to_base64 (bookname ++ toString page_num)
    title := bookname ++ "_page_" ++ toString page_num
    chunk := content
    chunkVector := embed_query (if content != "" then content else "-------")
    name := bookname
    location := book_url
    page_num := page_num }

/-! ## Claim theorems -/

/-- Claim C1: the chunked map-reduce strategy is selected iff
prompt-template tokens + context tokens + requested completion tokens exceed
90% of the token budget of the model, and the single-pass stuff strategy is
selected otherwise; in particular for budget 32768 with 1669 + 4111 + 1000 =
6780 requested tokens the single-pass strategy is selected. -/
theorem claim_C1_budget_threshold :
    (∀ p c m B : ℕ,
        (chain_type (p + c + m) B = "map_reduce" ↔
          ((p + c + m : ℕ) : ℚ) > 0.9 * (B : ℚ))
      ∧ (chain_type (p + c + m) B = "stuff" ↔
          ¬ ((p + c + m : ℕ) : ℚ) > 0.9 * (B : ℚ)))
    ∧ 1669 + 4111 + 1000 = 6780
    ∧ chain_type (1669 + 4111 + 1000) 32768 = "stuff" := by
  refine ⟨fun p c m B => ?_, by norm_num, ?_⟩
  · by_cases h : ((p + c + m : ℕ) : ℚ) > 0.9 * (B : ℚ)
    · simp [chain_type, h]
    · simp [chain_type, h]
  · norm_num [chain_type]

/-- Claim C10: the token counting and strategy selection run only when the
search returned at least one document — on an empty result list the outcome
is the fixed message "NO RESULTS FROM AZURE SEARCH", whatever the token
helpers would compute — and on a non-empty list the outcome is the selected
chain type together with the computed token counts. -/
theorem claim_C10_empty_guard :
    (∀ (lim fs : String → ℕ) (fd : List Document → ℕ) (M T : String) (C : ℕ),
        strategy_step lim fs fd M T C [] = .noResults "NO RESULTS FROM AZURE SEARCH")
    ∧ (∀ (lim fs : String → ℕ) (fd : List Document → ℕ) (M T : String) (C : ℕ)
        (docs : List Document), docs ≠ [] →
        strategy_step lim fs fd M T C docs =
          .selected (fs T) (fd docs) (fs T + fd docs + C)
            (chain_type (fs T + fd docs + C) (lim M))) := by
  constructor
  · intro lim fs fd M T C
    rfl
  · intro lim fs fd M T C docs hd
    have hlen : docs.length > 0 := List.length_pos.mpr hd
    simp [strategy_step, hlen]

/-- Witness for C10 at a concrete one-document result set with the token
counts of the claim. -/
theorem claim_C10_witness :
    strategy_step (fun _ => 32768) (fun _ => 1669) (fun _ => 4111) "gpt-4-32k"
        "COMBINE_PROMPT_TEMPLATE" 1000 [⟨"hello", "s"⟩] =
      .selected 1669 4111 6780 (chain_type 6780 32768) :=
  claim_C10_empty_guard.2 (fun _ => 32768) (fun _ => 1669) (fun _ => 4111)
    "gpt-4-32k" "COMBINE_PROMPT_TEMPLATE" 1000 [⟨"hello", "s"⟩] (by simp)

/-- Claim C3 counterexample: an always-failing tool is invoked 5 times — not
at most 2 — by the retry loop of `06-TabularDataQA.ipynb`. -/
theorem claim_C3_counterexample :
    ¬ ((tabular_retry (fun _ => .error "transient")).2 ≤ 2) := by
  decide

/-- Claim C3 (amended): an always-failing tool is invoked exactly 5 times by
the retry loop of the tabular notebook, whose final textual result is the fixed
message "Error too many failed retries"; the retry
loop of the API-search notebook invokes it exactly 2 times and its final result is the message of the
last error rather than a fixed message.  In general neither loop exceeds its
bound of 5 (resp. 2) invocations. -/
theorem claim_C3_retry_bounds :
    (∀ m : ℕ → String,
        tabular_retry (fun i => .error (m i)) = ("Error too many failed retries", 5)
      ∧ api_retry (fun i => .error (m i)) = (m 1, 2))
    ∧ ∀ run : ℕ → Except String String,
        (tabular_retry run).2 ≤ 5 ∧ (api_retry run).2 ≤ 2 := by
  constructor
  · intro m
    exact ⟨rfl, rfl⟩
  · intro run
    constructor
    · simpa [tabular_retry] using
        forRetry_count_le (fun _ => "Error too many failed retries")
          ((List.range 5).map run) ""
    · simpa [api_retry] using
        forRetry_count_le (fun e => e) ((List.range 2).map run) ""

/-- Claim C2 (evaluated at failing inputs): the result contract is violated
by the code.  When `chain.run` raises (here: a rate-limit error while
synthesizing the request), `MyAPISearch._run` returns the caught exception
object itself (`response = e`), not a textual description; and when
`requests.get` raises in `MySimpleAPISearch._run` (it stands outside the
`try`), the exception escapes the tool boundary uncaught. -/
theorem claim_C2_error_crosses_boundary :
    MyAPISearch_run [] (fun _ => .error "RateLimitError") (fun u => .ok u)
        (fun _ b => .ok b) "q"
      = (.ok (.errObj "RateLimitError"), [])
    ∧ (MySimpleAPISearch_run (fun _ _ => .error "ConnectionError") "demo" "q").1
      = .error "ConnectionError" :=
  ⟨rfl, rfl⟩

/-- Claim C4 (evaluated at a failing input): with allow-list
`["https://x.test/"]` a synthesized request to `https://y.test/...` is
rejected before execution with DomainNotAllowed and no network call is made
(the call log is empty), but the result of the tool is the caught DomainNotAllowed
exception object (`response = e`), not a text result. -/
theorem claim_C4_domain_not_allowed :
    MyAPISearch_run ["https://x.test/"] (fun _ => .ok "https://y.test/covid")
        (fun u => .ok ("body of " ++ u)) (fun _ b => .ok ("summary of " ++ b)) "q"
      = (.ok (.errObj "DomainNotAllowed: https://y.test/covid"), []) := by
  rfl

/-- Reduction of a parameter is idempotent. -/
theorem reduceParam_idem (p : Param) : reduceParam (reduceParam p) = reduceParam p := rfl

/-- Reduction of an operation is idempotent. -/
theorem reduceOperation_idem (op : Operation) :
    reduceOperation (reduceOperation op) = reduceOperation op := by
  simp [reduceOperation, List.map_map, Function.comp_def, reduceParam_idem]

/-- Claim C5: reduction is idempotent — reducing an already-reduced
description yields the same content. -/
theorem claim_C5_reduce_idempotent (D R : ApiDescription)
    (h : reduce_openapi_spec D = .ok R) :
    reduce_openapi_spec R = .ok R := by
  rcases D with ⟨ops⟩
  cases ops with
  | none => simp [reduce_openapi_spec] at h
  | some l =>
    cases l with
    | nil => simp [reduce_openapi_spec] at h
    | cons a t =>
      simp only [reduce_openapi_spec, Except.ok.injEq] at h
      subst h
      simp [reduce_openapi_spec, List.map_map, Function.comp_def, reduceOperation_idem]

/-- A sample API Description (one operation of the disease.sh API used by the
notebook), with the verbose detail that reduction strips. -/
def sampleDescription : ApiDescription :=
  ⟨some [{ method := "GET"
           path := "/v3/covid-19/countries/\x7bcountry\x7d"
           summary := none
           description := some "Get totals for one country"
           parameters := [{ name := "country", location := "path", required := true,
                            primType := "string",
                            schema := some "\x7b type: object, properties: ... \x7d",
                            examples := some "Argentina" }]
           responses := some "CovidCountry" }]⟩

/-- The reduction of `sampleDescription`. -/
def sampleReduced : ApiDescription :=
  ⟨some [{ method := "GET"
           path := "/v3/covid-19/countries/\x7bcountry\x7d"
           summary := some "Get totals for one country"
           description := none
           parameters := [{ name := "country", location := "path", required := true,
                            primType := "string", schema := none, examples := none }]
           responses := none }]⟩

/-- Witness for C5 at the sample description. -/
theorem claim_C5_witness :
    reduce_openapi_spec sampleDescription = .ok sampleReduced ∧
    reduce_openapi_spec sampleReduced = .ok sampleReduced :=
  ⟨rfl, claim_C5_reduce_idempotent sampleDescription sampleReduced rfl⟩

/-- Reducing a parameter never increases its serialized size. -/
theorem paramSize_reduce_le (p : Param) : paramSize (reduceParam p) ≤ paramSize p := by
  simp only [paramSize, reduceParam, optSize, Option.getD_none, String.length_empty]
  omega

/-- Reducing an operation never increases its serialized size. -/
theorem opSize_reduce_le (op : Operation) : opSize (reduceOperation op) ≤ opSize op := by
  have hsum : ((op.parameters.map reduceParam).map paramSize).sum ≤
      (op.parameters.map paramSize).sum := by
    rw [List.map_map]
    exact List.sum_le_sum fun p _ => paramSize_reduce_le p
  have hsummary : (op.summary.getD (op.description.getD "")).length ≤
      optSize op.summary + optSize op.description := by
    cases hs : op.summary with
    | some s => simp [optSize, hs]
    | none => simp [optSize, hs]
  simp only [opSize, reduceOperation, optSize, Option.getD_some, Option.getD_none,
    String.length_empty] at *
  omega

/-- Claim C6: the serialized size of the reduced description is at most the
serialized size of the input. -/
theorem claim_C6_size_non_increase (D R : ApiDescription)
    (h : reduce_openapi_spec D = .ok R) :
    serialized_size R ≤ serialized_size D := by
  rcases D with ⟨ops⟩
  cases ops with
  | none => simp [reduce_openapi_spec] at h
  | some l =>
    cases l with
    | nil => simp [reduce_openapi_spec] at h
    | cons a t =>
      simp only [reduce_openapi_spec, Except.ok.injEq] at h
      subst h
      simp only [serialized_size, Option.getD_some, List.map_map]
      exact List.sum_le_sum fun op _ => opSize_reduce_le op

/-- Witness for C6 at the sample description. -/
theorem claim_C6_witness :
    serialized_size sampleReduced ≤ serialized_size sampleDescription :=
  claim_C6_size_non_increase sampleDescription sampleReduced rfl

/-- Claim C7: the schema-less tool issues exactly one HTTP GET request to its
fixed endpoint, with the search-term parameter overwritten by the query, the
access-key parameter always included and the other parameters fixed; when
the response parses, the result is the serialized JSON response. -/
theorem claim_C7_simple_api_shape
    (get : String → List (String × String) → Except String (Except String Json))
    (api_key query : String) :
    (MySimpleAPISearch_run get api_key query).2 =
      [("https://api.countdownapi.com/request",
        [("api_key", api_key), ("type", "search"),
         ("ebay_domain", "ebay.com"), ("search_term", query)])]
    ∧ ∀ j : Json,
        get "https://api.countdownapi.com/request"
            [("api_key", api_key), ("type", "search"),
             ("ebay_domain", "ebay.com"), ("search_term", query)] = .ok (.ok j) →
        (MySimpleAPISearch_run get api_key query).1 = .ok (.text (Json.dumps j)) := by
  constructor
  · cases hg : get "https://api.countdownapi.com/request"
        [("api_key", api_key), ("type", "search"),
         ("ebay_domain", "ebay.com"), ("search_term", query)] with
    | error e => simp [MySimpleAPISearch_run, hg]
    | ok body => cases body <;> simp [MySimpleAPISearch_run, hg]
  · intro j hj
    simp [MySimpleAPISearch_run, hj]

/-- Witness for C7 at a concrete oracle and query. -/
theorem claim_C7_witness :
    (MySimpleAPISearch_run (fun _ _ => .ok (.ok (Json.str "resp"))) "demo" "memory cards").2 =
      [("https://api.countdownapi.com/request",
        [("api_key", "demo"), ("type", "search"),
         ("ebay_domain", "ebay.com"), ("search_term", "memory cards")])]
    ∧ (MySimpleAPISearch_run (fun _ _ => .ok (.ok (Json.str "resp"))) "demo" "memory cards").1 =
      .ok (.text (Json.dumps (Json.str "resp"))) :=
  ⟨(claim_C7_simple_api_shape (fun _ _ => .ok (.ok (Json.str "resp"))) "demo" "memory cards").1,
   (claim_C7_simple_api_shape (fun _ _ => .ok (.ok (Json.str "resp"))) "demo" "memory cards").2
     (Json.str "resp") rfl⟩

/-- Claim C8: reducing a document whose top-level operation collection is
missing entirely yields a MalformedSpec textual explanation (and, the
reducer being a total function, never a crash). -/
theorem claim_C8_malformed_missing_operations :
    reduce_openapi_spec ⟨none⟩ =
      .error "MalformedSpec: the document has no operation collection" := rfl

/-- Claim C9: in the index upload loop, the chunk field of the uploaded
document always stores the extracted content of the page, and its chunkVector is the
embedding of the fixed placeholder "-------" when that content is empty and
the embedding of the content itself otherwise. -/
theorem claim_C9_empty_page_placeholder {E : Type} (embed_query : String → E)
    (text_to_base64 : String → String) (BASE_CONTAINER_URL bookname : String)
    (page : ℕ × String × String) :
    ((upload_payload_doc embed_query text_to_base64 BASE_CONTAINER_URL bookname page).chunk
        = page.2.2)
    ∧ (page.2.2 = "" →
        (upload_payload_doc embed_query text_to_base64 BASE_CONTAINER_URL bookname
          page).chunkVector = embed_query "-------")
    ∧ (page.2.2 ≠ "" →
        (upload_payload_doc embed_query text_to_base64 BASE_CONTAINER_URL bookname
          page).chunkVector = embed_query page.2.2) := by
  refine ⟨rfl, ?_, ?_⟩
  · intro h
    simp [upload_payload_doc, h]
  · intro h
    simp [upload_payload_doc, bne_iff_ne, h]

/-- Witness for C9 at an empty and a non-empty page. -/
theorem claim_C9_witness :
    ((upload_payload_doc (id : String → String) id "u/" "b" (0, "x", "")).chunkVector
        = "-------")
    ∧ ((upload_payload_doc (id : String → String) id "u/" "b" (0, "x", "page text")).chunkVector
        = "page text") :=
  ⟨(claim_C9_empty_page_placeholder (id : String → String) id "u/" "b" (0, "x", "")).2.1 rfl,
   (claim_C9_empty_page_placeholder (id : String → String) id "u/" "b"
      (0, "x", "page text")).2.2 (by decide)⟩

end Spec2Proof
